import Mathlib

/-!
Shallow embedding of the Zynk Email Intelligence Dashboard client
(`dashboard.js`) together with the relevant parts of the shipped document
tree (`index.html`).  The `EmailDashboard` class becomes explicit state
passing over a `DashboardState`; DOM elements that the code reads or
writes become fields of a `Dom` record; a `getElementById` on an id that
the shipped document does not define is modelled as a thrown `TypeError`
(`Outcome.thrown`), carrying the mutations performed so far, since the
JavaScript mutates the live document in place.
-/

namespace Zynk

/-- An email/article record as delivered by the backend.  Fields follow the
wire shape used by `dashboard.js`: section cards read `title`, `sender`,
`snippet`, `type`; article cards read `title`, `sender`, `summary`,
`category`, and optionally `full_content`. -/
structure Email where
  title : String
  sender : String
  date : String
  snippet : String
  summary : String
  type : String
  category : String
  full_content : Option String
deriving DecidableEq

/-- The `stats` object of a snapshot (`stats.total_emails`). -/
structure Stats where
  total_emails : Nat
deriving DecidableEq

/-- The full dataset held by the controller (`this.emailsData`).  JavaScript
objects keyed by section / category name are modelled as association lists,
preserving the object's insertion (iteration) order. -/
structure EmailSnapshot where
  sections : List (String × List Email)
  article_categories : List (String × List Email)
  stats : Option Stats
deriving DecidableEq

/-- State of the `emailsGrid` element (inline display style and class). -/
structure Elem where
  display : String
  className : String
deriving DecidableEq

/-- The parts of the document tree that `dashboard.js` reads or writes.
`tabCounts` maps a section name to the text of its `count-<section>`
element; the shipped document defines such elements exactly for the five
fixed tabs.  `emailsGrid` is `none` when the document has no element with
id `emailsGrid` (the shipped `index.html` defines `articlesGrid` instead). -/
structure Dom where
  tabCounts : List (String × String)
  allCountText : String
  categoryButtons : List (String × String)
  headerText : String
  totalCountText : String
  loadingDisplay : String
  emptyDisplay : String
  emailsGrid : Option Elem
  articlesGridClass : String
  bodyOverflow : String
  modalActive : Bool
  modalTitle : String
  modalSender : String
  modalDate : String
  modalCategoryText : String
  modalCategoryClass : String
  modalContent : String
  activeTab : String
  activeViewBtn : String
  activeCategoryBtn : String
  sidebarDisplay : String
  contentLayoutNoSidebar : Bool
  toasts : List (String × String)
  listing : List String
deriving DecidableEq

/-- The controller's own state (`this.currentSection`, `this.currentCategory`,
`this.currentView`, `this.emailsData`) together with the document. -/
structure DashboardState where
  currentSection : String
  currentCategory : String
  currentView : String
  emailsData : Option EmailSnapshot
  dom : Dom
deriving DecidableEq

/-- Result of running a handler: either it returned normally, or a
`TypeError` escaped it; in both cases the state records the mutations
performed before the end. -/
inductive Outcome (α : Type) where
  | ok (s : α)
  | thrown (s : α)
deriving DecidableEq

/-- The state carried by an outcome. -/
def Outcome.state {α : Type} : Outcome α → α
  | .ok s => s
  | .thrown s => s

/-- Whether the handler completed without an exception escaping. -/
def Outcome.isOk {α : Type} : Outcome α → Bool
  | .ok _ => true
  | .thrown _ => false

/-- `escapeHtml` escapes one character the way
`div.textContent = text; div.innerHTML` serialises it: the three HTML
markup characters become entities, everything else is untouched. -/
def escapeHtmlChar (c : Char) : List Char :=
  if c = '&' then ['&', 'a', 'm', 'p', ';']
  else if c = '<' then ['&', 'l', 't', ';']
  else if c = '>' then ['&', 'g', 't', ';']
  else [c]

/-- Character-list form of `escapeHtml`. -/
def escapeHtmlList : List Char → List Char
  | [] => []
  | c :: cs => escapeHtmlChar c ++ escapeHtmlList cs

/-- `escapeHtml(text)` from `dashboard.js`: serialise `text` as HTML text
content (`div.textContent = text; return div.innerHTML`). -/
def escapeHtml (text : String) : String := ⟨escapeHtmlList text.data⟩

/-- Inverse HTML-entity reading, used to show that the escaped insertion is
the literal text of the original field. -/
def unescapeHtmlList : List Char → List Char
  | '&' :: 'a' :: 'm' :: 'p' :: ';' :: rest => '&' :: unescapeHtmlList rest
  | '&' :: 'l' :: 't' :: ';' :: rest => '<' :: unescapeHtmlList rest
  | '&' :: 'g' :: 't' :: ';' :: rest => '>' :: unescapeHtmlList rest
  | c :: rest => c :: unescapeHtmlList rest
  | [] => []

/-- String form of `unescapeHtmlList`. -/
def unescapeHtml (s : String) : String := ⟨unescapeHtmlList s.data⟩

/-- `s.charAt(0).toUpperCase() + s.slice(1)` (ASCII upper-casing). -/
def capitalizeFirst (s : String) : String :=
  match s.data with
  | [] => ""
  | c :: cs => ⟨c.toUpper :: cs⟩

/-- `content.split('\n')` on the character list: the maximal runs between
newline separators, in order (an empty string yields one empty piece). -/
def splitLinesList : List Char → List (List Char)
  | [] => [[]]
  | c :: cs =>
    match splitLinesList cs with
    | [] => [[]]
    | l :: ls => if c = '\n' then [] :: l :: ls else (c :: l) :: ls

/-- `content.split('\n')` as strings. -/
def splitLines (s : String) : List String := (splitLinesList s.data).map String.mk

/-- `p.trim()` on the character list: strips whitespace from both ends. -/
def trimList (l : List Char) : List Char :=
  ((l.dropWhile Char.isWhitespace).reverse.dropWhile Char.isWhitespace).reverse

/-- `p.trim()`. -/
def jsTrim (s : String) : String := ⟨trimList s.data⟩

/-- `formatSectionName(section)` from `dashboard.js`. -/
def formatSectionName (sec : String) : String :=
  if sec = "articles" then "Articles & Blogs"
  else if sec = "jobs" then "Job Alerts"
  else if sec = "promotions" then "Promotions"
  else if sec = "notifications" then "Notifications"
  else if sec = "personal" then "Personal"
  else capitalizeFirst sec

/-- `formatCategoryName(category)` from `dashboard.js`. -/
def formatCategoryName (category : String) : String := capitalizeFirst category

/-- Locale date formatting (`toLocaleDateString` with the short options) is
modelled as the identity on the date string; no claim inspects its value. -/
def formatDateShort (date : String) : String := date

/-- Locale date formatting (`toLocaleDateString` with the long options) is
modelled as the identity on the date string; no claim inspects its value. -/
def formatDateLong (date : String) : String := date

/-- JavaScript `a || b` on an optional string: `b` when `a` is absent or
empty (falsy), else the string itself. -/
def jsOr (err : Option String) (dflt : String) : String :=
  match err with
  | some e => if e = "" then dflt else e
  | none => dflt

/-- `showToast(message, type)`: the toast element always exists, so the call
never throws; the model records every toast shown, in order. -/
def showToast (st : DashboardState) (message : String) (kind : String) : DashboardState :=
  { st with dom := { st.dom with toasts := st.dom.toasts ++ [(message, kind)] } }

/-- `showLoading()`: sets the loading/empty displays, then dereferences
`getElementById('emailsGrid')`, which throws when the document has no such
element. -/
def showLoading (st : DashboardState) : Outcome DashboardState :=
  let st1 := { st with dom := { st.dom with loadingDisplay := "flex", emptyDisplay := "none" } }
  match st1.dom.emailsGrid with
  | none => .thrown st1
  | some g => .ok { st1 with dom := { st1.dom with emailsGrid := some { g with display := "none" } } }

/-- `createArticleCard(article)`: the card's generated markup (template
literal with whitespace normalised). -/
def createArticleCard (article : Email) : String :=
  "<div class=\"article-header\"><h3 class=\"article-title\">" ++ escapeHtml article.title ++
  "</h3><div class=\"article-meta\"><span class=\"article-sender\">" ++ escapeHtml article.sender ++
  "</span><span class=\"article-date\">" ++ formatDateShort article.date ++
  "</span></div><span class=\"article-category " ++ article.category ++ "\">" ++
  formatCategoryName article.category ++
  "</span></div><div class=\"article-summary\">" ++ escapeHtml article.summary ++ "</div>"

/-- `createSectionEmailCard(email)`: the card's generated markup (template
literal with whitespace normalised). -/
def createSectionEmailCard (email : Email) : String :=
  "<div class=\"article-header\"><h3 class=\"article-title\">" ++ escapeHtml email.title ++
  "</h3><div class=\"article-meta\"><span class=\"article-sender\">" ++ escapeHtml email.sender ++
  "</span><span class=\"article-date\">" ++ formatDateShort email.date ++
  "</span></div><span class=\"article-category " ++ email.type ++ "\">" ++
  formatSectionName email.type ++
  "</span></div><div class=\"article-summary\">" ++ escapeHtml email.snippet ++ "</div>"

/-- Placeholder markup rendered by `displayArticles` for an empty category. -/
def emptyArticlesHtml : String :=
  "<div class=\"empty-category\"><p>No articles found in this category.</p></div>"

/-- Placeholder markup rendered by `displaySectionEmails` for an empty section. -/
def emptySectionHtml (sec : String) : String :=
  "<div class=\"empty-category\"><p>No " ++ sec ++ " found.</p></div>"

/-- The card list `displayArticles` renders into `articlesList`, given the
snapshot and the active category. -/
def displayArticlesCards (snap : EmailSnapshot) (cat : String) : List String :=
  let articles :=
    if cat = "all" then (snap.sections.lookup "articles").getD []
    else (snap.article_categories.lookup cat).getD []
  if articles.length = 0 then [emptyArticlesHtml] else articles.map createArticleCard

/-- `displayArticles()`: guarded on `this.emailsData`; replaces the listing
with one card per article of the active category (or the placeholder). -/
def displayArticles (st : DashboardState) : DashboardState :=
  match st.emailsData with
  | none => st
  | some snap =>
    { st with dom := { st.dom with listing := displayArticlesCards snap st.currentCategory } }

/-- The card list `displaySectionEmails` renders into `articlesList`, given
the snapshot and the active section. -/
def displaySectionCards (snap : EmailSnapshot) (sec : String) : List String :=
  let emails := (snap.sections.lookup sec).getD []
  if emails.length = 0 then [emptySectionHtml sec] else emails.map createSectionEmailCard

/-- `displaySectionEmails()`: guarded on `this.emailsData`; sets the listing
header to the section name and replaces the listing with the section's
cards (or the placeholder). -/
def displaySectionEmails (st : DashboardState) : DashboardState :=
  match st.emailsData with
  | none => st
  | some snap =>
    { st with dom := { st.dom with
        headerText := formatSectionName st.currentSection
        listing := displaySectionCards snap st.currentSection } }

/-- `displayCurrentSection()`: guarded on `this.emailsData`; dispatches on
the active section. -/
def displayCurrentSection (st : DashboardState) : DashboardState :=
  match st.emailsData with
  | none => st
  | some _ =>
    if st.currentSection = "articles" then displayArticles st else displaySectionEmails st

/-- `displayEmails()`: generic re-render of the active section's listing. -/
def displayEmails (st : DashboardState) : DashboardState := displayCurrentSection st

/-- `countElement.textContent = ...` for the tab of section `k`: updates the
entry when the element exists and is a no-op when it does not
(`getElementById` returned `null` and the code skips it). -/
def setTabCount (counts : List (String × String)) (k v : String) : List (String × String) :=
  counts.map fun p => if p.1 = k then (k, v) else p

/-- `updateSectionCounts()`: for each key of `sections` (in iteration
order), writes that section's sequence length into its tab-count element,
when that element exists. -/
def updateSectionCounts (st : DashboardState) : DashboardState :=
  match st.emailsData with
  | none => st
  | some snap =>
    let counts :=
      snap.sections.foldl (fun cs p => setTabCount cs p.1 (toString p.2.length)) st.dom.tabCounts
    { st with dom := { st.dom with tabCounts := counts } }

/-- Body of `updateCategoryFilters()` once `this.emailsData` is known to be
non-null: rebuilds the category buttons from `article_categories` and sets
the "All" count to the length of `sections.articles` (0 when absent). -/
def updateCategoryFiltersCore (snap : EmailSnapshot) (st : DashboardState) : DashboardState :=
  let totalCount := ((snap.sections.lookup "articles").getD []).length
  { st with dom := { st.dom with
      allCountText := toString totalCount
      categoryButtons := snap.article_categories.map fun p => (p.1, toString p.2.length) } }

/-- `updateCategoryFilters()`: reading `this.emailsData.article_categories`
throws when no snapshot has been loaded. -/
def updateCategoryFilters (st : DashboardState) : Outcome DashboardState :=
  match st.emailsData with
  | none => .thrown st
  | some snap => .ok (updateCategoryFiltersCore snap st)

/-- `updateUI()`: guarded on `this.emailsData`; updates tab counts, the
category filters (only for the articles section), and the header total. -/
def updateUI (st : DashboardState) : DashboardState :=
  match st.emailsData with
  | none => st
  | some snap =>
    let st1 := updateSectionCounts st
    let st2 := if st1.currentSection = "articles" then updateCategoryFiltersCore snap st1 else st1
    { st2 with dom := { st2.dom with
        totalCountText := toString ((snap.stats.map Stats.total_emails).getD 0) } }

/-- The five fixed section tabs of the shipped document. -/
def sectionTabs : List String := ["articles", "jobs", "promotions", "notifications", "personal"]

/-- `switchSection(section)`: sets `currentSection`, re-activates the tab
(`querySelector` throws for a section with no tab), toggles the sidebar,
resets the category to `all` only when entering `articles`, and re-renders. -/
def switchSection (sec : String) (st : DashboardState) : Outcome DashboardState :=
  let st1 := { st with currentSection := sec }
  if sec ∈ sectionTabs then
    let st2 := { st1 with dom := { st1.dom with activeTab := sec } }
    if sec = "articles" then
      let st3 := { st2 with
        currentCategory := "all"
        dom := { st2.dom with sidebarDisplay := "block", contentLayoutNoSidebar := false } }
      match updateCategoryFilters st3 with
      | .thrown s => .thrown s
      | .ok s => .ok (displayCurrentSection s)
    else
      let st3 := { st2 with
        dom := { st2.dom with sidebarDisplay := "none", contentLayoutNoSidebar := true } }
      .ok (displayCurrentSection st3)
  else .thrown { st1 with dom := { st1.dom with activeTab := "" } }

/-- The effective `filterByCategory(category)`: the class body defines the
method twice (lines 367 and 514 of `dashboard.js`) and, per JavaScript
class semantics, the later definition wins.  It sets `currentCategory`,
re-activates the matching category button (none when no button carries that
category), re-renders via `displayEmails`, and shows a success toast; it
contains no update of the listing header element. -/
def filterByCategory (category : String) (st : DashboardState) : DashboardState :=
  let st1 := { st with currentCategory := category }
  let btns := "all" :: st1.dom.categoryButtons.map Prod.fst
  let st2 := { st1 with dom := { st1.dom with
      activeCategoryBtn := if category ∈ btns then category else "" } }
  let st3 := displayEmails st2
  let categoryName := if category = "all" then "All Articles" else formatCategoryName category
  showToast st3 ("Showing " ++ categoryName) "success"

/-- The shadowed first `filterByCategory` (lines 367-382): it additionally
updated the listing header text and rendered via `displayArticles`; its
`querySelector` on the active button throws when the button is absent. -/
def filterByCategoryShadowed (category : String) (st : DashboardState) : Outcome DashboardState :=
  let st1 := { st with currentCategory := category }
  let btns := "all" :: st1.dom.categoryButtons.map Prod.fst
  if category ∈ btns then
    let st2 := { st1 with dom := { st1.dom with activeCategoryBtn := category } }
    let st3 := { st2 with dom := { st2.dom with
        headerText := if category = "all" then "All Articles" else formatCategoryName category } }
    .ok (displayArticles st3)
  else .thrown { st1 with dom := { st1.dom with activeCategoryBtn := "" } }

/-- The two view-toggle buttons of the shipped document. -/
def viewButtons : List String := ["grid", "list"]

/-- `toggleView(view)`: sets `currentView`, re-activates the view buttons,
sets the class of the `emailsGrid` element when it exists (the shipped
document has none), re-renders, and shows a success toast. -/
def toggleView (view : String) (st : DashboardState) : DashboardState :=
  let st1 := { st with currentView := view }
  let st2 := { st1 with dom := { st1.dom with
      activeViewBtn := if view ∈ viewButtons then view else "" } }
  let st3 :=
    match st2.dom.emailsGrid with
    | some g =>
      { st2 with dom := { st2.dom with emailsGrid := some { g with className := "emails-" ++ view } } }
    | none => st2
  let st4 := displayEmails st3
  showToast st4 ("Switched to " ++ view ++ " view") "success"

/-- `article.full_content || article.summary` in `openArticle`. -/
def articleContent (article : Email) : String :=
  match article.full_content with
  | some c => if c = "" then article.summary else c
  | none => article.summary

/-- `.map(...).join('')` over the split paragraphs. -/
def concatAll : List String → String
  | [] => ""
  | s :: rest => s ++ concatAll rest

/-- The `formattedContent` computed by `openArticle`: paragraphs of the
content, each trimmed, escaped and wrapped in `<p>`, empty lines dropped. -/
def formattedArticleContent (article : Email) : String :=
  concatAll ((splitLines (articleContent article)).map fun p =>
    if jsTrim p = "" then "" else "<p>" ++ escapeHtml (jsTrim p) ++ "</p>")

/-- `openArticle(article)`: fills the detail overlay (title and sender via
`textContent`, content via escaped paragraphs), activates it and disables
background scroll. -/
def openArticle (article : Email) (st : DashboardState) : DashboardState :=
  let fc := formattedArticleContent article
  { st with dom := { st.dom with
      modalTitle := article.title
      modalSender := "From: " ++ article.sender
      modalDate := formatDateLong article.date
      modalCategoryText := formatCategoryName article.category
      modalCategoryClass := "article-category " ++ article.category
      modalContent := if fc = "" then "<p>No content available.</p>" else fc
      modalActive := true
      bodyOverflow := "hidden" } }

/-- `openSectionEmail(email)`: fills the detail overlay with the escaped
snippet as its single paragraph, activates it and disables background
scroll. -/
def openSectionEmail (email : Email) (st : DashboardState) : DashboardState :=
  { st with dom := { st.dom with
      modalTitle := email.title
      modalSender := "From: " ++ email.sender
      modalDate := formatDateLong email.date
      modalCategoryText := formatSectionName email.type
      modalCategoryClass := "article-category " ++ email.type
      modalContent := "<p>" ++ escapeHtml email.snippet ++ "</p>"
      modalActive := true
      bodyOverflow := "hidden" } }

/-- `closeModal()`: deactivates the overlay and clears the body overflow
back to the stylesheet default (scrollable). -/
def closeModal (st : DashboardState) : DashboardState :=
  { st with dom := { st.dom with modalActive := false, bodyOverflow := "" } }

/-- `showEmpty()`: sets the loading/empty displays, then dereferences
`getElementById('emailsGrid')`, which throws when the document has no such
element. -/
def showEmpty (st : DashboardState) : Outcome DashboardState :=
  let st1 := { st with dom := { st.dom with loadingDisplay := "none", emptyDisplay := "flex" } }
  match st1.dom.emailsGrid with
  | none => .thrown st1
  | some g => .ok { st1 with dom := { st1.dom with emailsGrid := some { g with display := "none" } } }

/-- `showEmails()`: like `showEmpty` but reveals the grid, then re-renders. -/
def showEmails (st : DashboardState) : Outcome DashboardState :=
  let st1 := { st with dom := { st.dom with loadingDisplay := "none", emptyDisplay := "none" } }
  match st1.dom.emailsGrid with
  | none => .thrown st1
  | some g =>
    let st2 := { st1 with dom := { st1.dom with emailsGrid := some { g with display := "block" } } }
    .ok (displayEmails st2)

/-- How a `fetch` + `response.json()` pair resolves: the promise chain
rejects (network error, malformed body), or a parsed body arrives with its
`success`, `data` and `error` fields. -/
inductive FetchOutcome where
  | netError
  | response (success : Bool) (data : EmailSnapshot) (error : Option String)
deriving DecidableEq

/-- Whether the outcome is a failure in the sense of the spec: the fetch
rejected, or the body carried `success:false`. -/
def FetchOutcome.isFailure : FetchOutcome → Bool
  | .netError => true
  | .response success _ _ => !success

/-- The catch block of `loadEmails`: logs, toasts the error, and calls
`showEmpty` — whose own `TypeError` escapes the handler (there is no
enclosing catch). -/
def loadEmailsCatch (st : DashboardState) : Outcome DashboardState :=
  showEmpty (showToast st "Failed to load emails" "error")

/-- `loadEmails()` as a function of how its single fetch resolves.  When
`showLoading` throws before the fetch, the fetch never happens and the
outcome argument is ignored; the `TypeError` lands in the catch block. -/
def loadEmails (outcome : FetchOutcome) (st : DashboardState) : Outcome DashboardState :=
  match showLoading st with
  | .thrown s => loadEmailsCatch s
  | .ok s =>
    match outcome with
    | .netError => loadEmailsCatch s
    | .response true data _ =>
      let s1 := updateUI { s with emailsData := some data }
      match showEmails s1 with
      | .thrown s2 => loadEmailsCatch s2
      | .ok s2 => .ok s2
    | .response false _ _ =>
      match showEmpty s with
      | .thrown s2 => loadEmailsCatch s2
      | .ok s2 => .ok s2

/-- The error toast message of `refreshEmails` for a given failure
(`result.error || 'Failed to refresh emails'` on a `success:false` body). -/
def refreshFailureMessage : FetchOutcome → String
  | .netError => "Failed to refresh emails"
  | .response _ _ err => jsOr err "Failed to refresh emails"

/-- `refreshEmails()` as a function of how its single fetch resolves.  The
success branch's `showEmails` may throw; that `TypeError` is caught by the
same catch block as a network error. -/
def refreshEmails (outcome : FetchOutcome) (st : DashboardState) : Outcome DashboardState :=
  let st1 := showToast st "Refreshing emails..." "info"
  match outcome with
  | .netError => .ok (showToast st1 "Failed to refresh emails" "error")
  | .response true data _ =>
    let s1 := updateUI { st1 with emailsData := some data }
    match showEmails s1 with
    | .thrown s2 => .ok (showToast s2 "Failed to refresh emails" "error")
    | .ok s2 => .ok (showToast s2 "Emails refreshed successfully!" "success")
  | .response false _ err =>
    .ok (showToast st1 (jsOr err "Failed to refresh emails") "error")

/-- The catch block of `processEmails`: toasts the error and calls
`showEmpty`, whose own `TypeError` escapes the handler. -/
def processEmailsCatch (st : DashboardState) : Outcome DashboardState :=
  showEmpty (showToast st "Failed to process emails" "error")

/-- `processEmails()` as a function of how its single fetch resolves.  As in
`loadEmails`, a `TypeError` thrown by `showLoading` prevents the fetch. -/
def processEmails (outcome : FetchOutcome) (st : DashboardState) : Outcome DashboardState :=
  match showLoading st with
  | .thrown s => processEmailsCatch s
  | .ok s =>
    let s0 := showToast s "Processing emails... This may take a few minutes" "info"
    match outcome with
    | .netError => processEmailsCatch s0
    | .response true data _ =>
      let s1 := updateUI { s0 with emailsData := some data }
      match showEmails s1 with
      | .thrown s2 => processEmailsCatch s2
      | .ok s2 => .ok (showToast s2 "Emails processed successfully!" "success")
    | .response false _ err =>
      let s1 := showToast s0 (jsOr err "Failed to process emails") "error"
      match showEmpty s1 with
      | .thrown s2 => processEmailsCatch s2
      | .ok s2 => .ok s2

/-- An HTTP request as issued through `fetch`. -/
structure Request where
  method : String
  url : String
  contentType : String
  body : String
deriving DecidableEq

/-- `this.apiBase`. -/
def apiBase : String := "http://localhost:5002/api"

/-- A JSON value as passed to `JSON.stringify` (only the shapes the
dashboard sends). -/
inductive Json where
  | str (s : String)
  | num (n : Nat)
deriving DecidableEq

/-- Serialisation of one JSON value. -/
def Json.render : Json → String
  | .str s => "\"" ++ s ++ "\""
  | .num n => toString n

/-- `JSON.stringify` on an object literal with the given fields. -/
def jsonStringify (fields : List (String × Json)) : String :=
  "\x7b" ++ String.intercalate "," (fields.map fun p => "\"" ++ p.1 ++ "\":" ++ p.2.render) ++ "\x7d"

/-- The request `loadEmails` issues: `GET ${apiBase}/emails`. -/
def loadEmailsRequest : Request :=
  { method := "GET", url := apiBase ++ "/emails", contentType := "", body := "" }

/-- The request `refreshEmails` issues: `POST ${apiBase}/refresh` with the
JSON body built from `query: 'newer_than:7d'` and `max_results: 50`. -/
def refreshEmailsRequest : Request :=
  { method := "POST"
    url := apiBase ++ "/refresh"
    contentType := "application/json"
    body := jsonStringify [("query", Json.str "newer_than:7d"), ("max_results", Json.num 50)] }

/-- The request `processEmails` issues: `POST ${apiBase}/process-emails`
with the JSON body built from `query: 'newer_than:7d'` and
`max_results: 50`. -/
def processEmailsRequest : Request :=
  { method := "POST"
    url := apiBase ++ "/process-emails"
    contentType := "application/json"
    body := jsonStringify [("query", Json.str "newer_than:7d"), ("max_results", Json.num 50)] }

/-- The shipped `index.html` document as `dashboard.js` first sees it: tab
counts all read "0", only the "All" category button exists, the loading
state is visible, and — decisively — there is no element with id
`emailsGrid` (the listing container is `articlesGrid`). -/
def initialDom : Dom :=
  { tabCounts := [("articles", "0"), ("jobs", "0"), ("promotions", "0"),
      ("notifications", "0"), ("personal", "0")]
    allCountText := "0"
    categoryButtons := []
    headerText := "All Articles"
    totalCountText := "0"
    loadingDisplay := ""
    emptyDisplay := "none"
    emailsGrid := none
    articlesGridClass := "articles-grid"
    bodyOverflow := ""
    modalActive := false
    modalTitle := "Article Title"
    modalSender := ""
    modalDate := ""
    modalCategoryText := ""
    modalCategoryClass := "article-category"
    activeTab := "articles"
    activeViewBtn := "grid"
    activeCategoryBtn := "all"
    modalContent := ""
    sidebarDisplay := ""
    contentLayoutNoSidebar := false
    toasts := []
    listing := [] }

/-- The controller's state right after `new EmailDashboard()` assigns its
fields (before `init` runs). -/
def initialState : DashboardState :=
  { currentSection := "articles"
    currentCategory := "all"
    currentView := "grid"
    emailsData := none
    dom := initialDom }

/-- A document that does define an `emailsGrid` element, used to isolate the
handlers' branch logic from the missing-element defect. -/
def domWithEmailsGrid : Dom :=
  { initialDom with emailsGrid := some { display := "none", className := "emails-grid" } }

/-- `initialState` over `domWithEmailsGrid`. -/
def stateWithEmailsGrid : DashboardState := { initialState with dom := domWithEmailsGrid }

/-- A concrete record used by the concrete-input theorems. -/
def dummyEmail : Email :=
  { title := "t", sender := "s", date := "2024-01-01", snippet := "sn", summary := "su",
    type := "jobs", category := "technology", full_content := none }

/-- A concrete snapshot whose only section is `jobs` with two records. -/
def snapJobs2 : EmailSnapshot :=
  { sections := [("jobs", [dummyEmail, dummyEmail])]
    article_categories := []
    stats := some { total_emails := 2 } }

/-- A concrete snapshot with no sections at all. -/
def snapEmpty : EmailSnapshot :=
  { sections := [], article_categories := [], stats := some { total_emails := 0 } }

/-- A concrete record whose text fields carry HTML markup. -/
def markupEmail : Email :=
  { title := "<script>alert(1)</script>", sender := "<b>x</b>", date := "2024-01-01",
    snippet := "<i>sn</i>", summary := "<i>su</i>", type := "articles",
    category := "tech", full_content := some "hello\nworld" }

/-- A concrete state: articles section active in the UI state of
`stateWithEmailsGrid`, but with a non-default category selected and a
loaded snapshot. -/
def stTechJobs : DashboardState :=
  { stateWithEmailsGrid with currentCategory := "technology", emailsData := some snapJobs2 }

/-- A concrete state: the jobs section active, a loaded snapshot, and the
listing header still reading its default text. -/
def stJobsHeader : DashboardState :=
  { stateWithEmailsGrid with currentSection := "jobs", emailsData := some snapJobs2 }

/-! ### General lemmas about the embedding -/

/-- The escaped form of a single character contains neither `<` nor `>`. -/
theorem markup_not_mem_escapeHtmlList (l : List Char) :
    '<' ∉ escapeHtmlList l ∧ '>' ∉ escapeHtmlList l := by
  induction l with
  | nil => simp [escapeHtmlList]
  | cons c cs ih =>
    simp only [escapeHtmlList, List.mem_append]
    constructor
    · rintro (h | h)
      · unfold escapeHtmlChar at h
        split at h
        · simp at h
        · split at h
          · simp at h
          · split at h
            · simp at h
            · simp at h; subst h; simp_all
      · exact ih.1 h
    · rintro (h | h)
      · unfold escapeHtmlChar at h
        split at h
        · simp at h
        · split at h
          · simp at h
          · split at h
            · simp at h
            · simp at h; subst h; simp_all
      · exact ih.2 h

/-- Entity reading passes over a character other than `&` untouched. -/
theorem unescapeHtmlList_cons_of_ne (c : Char) (l : List Char) (h : c ≠ '&') :
    unescapeHtmlList (c :: l) = c :: unescapeHtmlList l := by
  conv_lhs => unfold unescapeHtmlList
  split
  · simp_all
  · simp_all
  · simp_all
  · simp_all
  · simp_all

/-- Reading the entities of an escaped string recovers the original
character list: the escaped insertion carries the literal text. -/
theorem unescape_escapeHtmlList (l : List Char) :
    unescapeHtmlList (escapeHtmlList l) = l := by
  induction l with
  | nil => rfl
  | cons c cs ih =>
    show unescapeHtmlList (escapeHtmlChar c ++ escapeHtmlList cs) = c :: cs
    by_cases h1 : c = '&'
    · subst h1
      have hc : escapeHtmlChar '&' = ['&', 'a', 'm', 'p', ';'] := rfl
      rw [hc]
      simp [unescapeHtmlList, ih]
    · by_cases h2 : c = '<'
      · subst h2
        have hc : escapeHtmlChar '<' = ['&', 'l', 't', ';'] := rfl
        rw [hc]
        simp [unescapeHtmlList, ih]
      · by_cases h3 : c = '>'
        · subst h3
          have hc : escapeHtmlChar '>' = ['&', 'g', 't', ';'] := rfl
          rw [hc]
          simp [unescapeHtmlList, ih]
        · have hc : escapeHtmlChar c = [c] := by simp [escapeHtmlChar, h1, h2, h3]
          rw [hc]
          rw [List.cons_append, List.nil_append, unescapeHtmlList_cons_of_ne c _ h1, ih]

/-- A list is a segment of itself followed by anything. -/
theorem headSeg {α : Type} (l x : List α) : l <:+: l ++ x := ⟨[], x, by simp⟩

/-- Segments are preserved by appending on the left. -/
theorem extendSegLeft {α : Type} {l m : List α} (x : List α) (h : l <:+: m) :
    l <:+: x ++ m := by
  rcases h with ⟨s, t, hst⟩
  exact ⟨x ++ s, t, by rw [← hst]; simp⟩

/-- Segments are preserved by appending on the right. -/
theorem extendSegRight {α : Type} {l m : List α} (x : List α) (h : l <:+: m) :
    l <:+: m ++ x := by
  rcases h with ⟨s, t, hst⟩
  exact ⟨s, t ++ x, by rw [← hst]; simp⟩

/-- A member of a string list is a segment of the `.join('')` of the list. -/
theorem seg_concatAll {L : List String} {x : String} (h : x ∈ L) :
    x.data <:+: (concatAll L).data := by
  induction L with
  | nil => cases h
  | cons y ys ih =>
    rcases List.mem_cons.mp h with rfl | hmem
    · show x.data <:+: (x ++ concatAll ys).data
      rw [String.data_append]
      exact headSeg _ _
    · show x.data <:+: (y ++ concatAll ys).data
      rw [String.data_append]
      exact extendSegLeft _ (ih hmem)

/-! ### The claims -/

/-- C2: for every record whose title, sender, snippet/summary or content
field contains HTML markup, the card renderers and the detail overlay
insert the HTML-escaped literal text of those fields into the generated
markup, never the raw markup: the escaped text of each field is what
appears at its slot, escaping introduces no `<` or `>` character (so no tag
of the field's raw markup survives), and reading the entities back yields
exactly the original field (literal text). -/
theorem C2_html_escaping (a : Email) (p : String)
    (hp : p ∈ splitLines (articleContent a)) (hne : jsTrim p ≠ "") :
    ((escapeHtml a.title).data <:+: (createArticleCard a).data
      ∧ (escapeHtml a.sender).data <:+: (createArticleCard a).data
      ∧ (escapeHtml a.summary).data <:+: (createArticleCard a).data)
    ∧ ((escapeHtml a.title).data <:+: (createSectionEmailCard a).data
      ∧ (escapeHtml a.sender).data <:+: (createSectionEmailCard a).data
      ∧ (escapeHtml a.snippet).data <:+: (createSectionEmailCard a).data)
    ∧ (∀ st : DashboardState,
        ("<p>" ++ escapeHtml (jsTrim p) ++ "</p>").data <:+: ((openArticle a st).dom.modalContent).data
          ∧ (openArticle a st).dom.modalTitle = a.title
          ∧ (openSectionEmail a st).dom.modalContent = "<p>" ++ escapeHtml a.snippet ++ "</p>")
    ∧ (∀ s : String, (∀ c ∈ (escapeHtml s).data, c ≠ '<' ∧ c ≠ '>')
          ∧ unescapeHtml (escapeHtml s) = s) := by
  have hmem : ("<p>" ++ escapeHtml (jsTrim p) ++ "</p>")
      ∈ ((splitLines (articleContent a)).map fun q =>
          if jsTrim q = "" then "" else "<p>" ++ escapeHtml (jsTrim q) ++ "</p>") := by
    have h := List.mem_map_of_mem
      (fun q => if jsTrim q = "" then "" else "<p>" ++ escapeHtml (jsTrim q) ++ "</p>") hp
    simpa [hne] using h
  have hseg : ("<p>" ++ escapeHtml (jsTrim p) ++ "</p>").data <:+: (formattedArticleContent a).data :=
    seg_concatAll hmem
  have hfc : ¬ formattedArticleContent a = "" := by
    intro h0
    rw [h0] at hseg
    rcases hseg with ⟨s, t, hst⟩
    have hdp : (("<p>" : String)).data = ['<', 'p', '>'] := rfl
    have hnil : (("" : String)).data = [] := rfl
    rw [hnil] at hst
    simp [String.data_append, hdp] at hst
  refine ⟨⟨?_, ?_, ?_⟩, ⟨?_, ?_, ?_⟩, ?_, ?_⟩
  · simp only [createArticleCard, String.data_append, List.append_assoc]
    repeat (first | exact headSeg _ _ | apply extendSegLeft)
  · simp only [createArticleCard, String.data_append, List.append_assoc]
    repeat (first | exact headSeg _ _ | apply extendSegLeft)
  · simp only [createArticleCard, String.data_append, List.append_assoc]
    repeat (first | exact headSeg _ _ | apply extendSegLeft)
  · simp only [createSectionEmailCard, String.data_append, List.append_assoc]
    repeat (first | exact headSeg _ _ | apply extendSegLeft)
  · simp only [createSectionEmailCard, String.data_append, List.append_assoc]
    repeat (first | exact headSeg _ _ | apply extendSegLeft)
  · simp only [createSectionEmailCard, String.data_append, List.append_assoc]
    repeat (first | exact headSeg _ _ | apply extendSegLeft)
  · intro st
    refine ⟨?_, rfl, rfl⟩
    show ("<p>" ++ escapeHtml (jsTrim p) ++ "</p>").data
        <:+: (if formattedArticleContent a = "" then "<p>No content available.</p>"
              else formattedArticleContent a).data
    rw [if_neg hfc]
    exact hseg
  · intro s
    constructor
    · intro c hc
      have hc2 : c ∈ escapeHtmlList s.data := hc
      constructor
      · intro h
        exact (markup_not_mem_escapeHtmlList s.data).1 (h ▸ hc2)
      · intro h
        exact (markup_not_mem_escapeHtmlList s.data).2 (h ▸ hc2)
    · show String.mk (unescapeHtmlList (escapeHtmlList s.data)) = s
      rw [unescape_escapeHtmlList]

/-- Witness for C2 at a concrete record with markup in every field. -/
theorem C2_html_escaping_witness :
    ("hello" ∈ splitLines (articleContent markupEmail) ∧ jsTrim "hello" ≠ "")
      ∧ (escapeHtml markupEmail.title).data <:+: (createArticleCard markupEmail).data := by
  refine ⟨⟨by decide, by decide⟩, ?_⟩
  exact (C2_html_escaping markupEmail "hello" (by decide) (by decide)).1.1

/-- C8: every request issued by `refreshEmails` and by `processEmails` is a
POST whose serialised JSON body is exactly the 7-day default query and the
50-result cap. -/
theorem C8_request_shape :
    refreshEmailsRequest.method = "POST"
    ∧ processEmailsRequest.method = "POST"
    ∧ refreshEmailsRequest.body = "\x7b\"query\":\"newer_than:7d\",\"max_results\":50\x7d"
    ∧ processEmailsRequest.body = "\x7b\"query\":\"newer_than:7d\",\"max_results\":50\x7d"
    ∧ refreshEmailsRequest.url = "http://localhost:5002/api/refresh"
    ∧ processEmailsRequest.url = "http://localhost:5002/api/process-emails" := by
  refine ⟨rfl, rfl, ?_, ?_, ?_, ?_⟩ <;> rfl

/-- C9: for every record and every starting body-overflow value, opening
the detail overlay sets the body overflow to `hidden`, and closing it
afterwards restores the stylesheet default (empty string), so the
open-then-close round trip leaves the page scrollable; this holds for both
`openArticle` and `openSectionEmail`. -/
theorem C9_modal_roundtrip (a : Email) (st : DashboardState) :
    (openArticle a st).dom.bodyOverflow = "hidden"
    ∧ (openSectionEmail a st).dom.bodyOverflow = "hidden"
    ∧ (closeModal (openArticle a st)).dom.bodyOverflow = ""
    ∧ (closeModal (openArticle a st)).dom.modalActive = false
    ∧ (closeModal (openSectionEmail a st)).dom.bodyOverflow = ""
    ∧ (closeModal (openSectionEmail a st)).dom.modalActive = false :=
  ⟨rfl, rfl, rfl, rfl, rfl, rfl⟩

/-- Witness for C9 at a concrete record over the initial state. -/
theorem C9_modal_roundtrip_witness :
    (closeModal (openArticle dummyEmail initialState)).dom.bodyOverflow = "" :=
  (C9_modal_roundtrip dummyEmail initialState).2.2.1

/-- C4 (the code defect): with the shipped document — which has no element
with id `emailsGrid` — a failing `loadEmails` run does reach the
empty-state view and toasts the error, but the `TypeError` raised inside
`showEmpty` escapes the handler's catch block (`isOk = false`); the same
happens to `processEmails`, contradicting the claim that no uncaught
exception escapes. -/
theorem C4_uncaught_typeerror :
    initialState.dom.emailsGrid = none
    ∧ (loadEmails FetchOutcome.netError initialState).isOk = false
    ∧ (loadEmails FetchOutcome.netError initialState).state.dom.emptyDisplay = "flex"
    ∧ (loadEmails FetchOutcome.netError initialState).state.dom.toasts
        = [("Failed to load emails", "error")]
    ∧ (processEmails FetchOutcome.netError initialState).isOk = false :=
  ⟨rfl, rfl, rfl, rfl, rfl⟩

/-- Counterexample to C3: a `success:false` response makes `loadEmails`
show the empty-state view but no error notification at all — the claim
that the error notification is shown in both failure cases is false. -/
theorem C3_cex_no_toast :
    (loadEmails (FetchOutcome.response false snapEmpty none) stateWithEmailsGrid).isOk = true
    ∧ (loadEmails (FetchOutcome.response false snapEmpty none)
        stateWithEmailsGrid).state.dom.emptyDisplay = "flex"
    ∧ (loadEmails (FetchOutcome.response false snapEmpty none)
        stateWithEmailsGrid).state.dom.toasts = [] :=
  ⟨rfl, rfl, rfl⟩

/-- C3 as amended: on a network error `loadEmails` shows the empty-state
view and surfaces the error notification; on a `success:false` response it
shows only the empty-state view, with no notification; in both cases the
single fetch is not retried (the handler consumes one fetch outcome). -/
theorem C3_amended (st : DashboardState) (g : Elem) (data : EmailSnapshot) (err : Option String)
    (h : st.dom.emailsGrid = some g) :
    ((loadEmails FetchOutcome.netError st).isOk = true
      ∧ (loadEmails FetchOutcome.netError st).state.dom.emptyDisplay = "flex"
      ∧ (loadEmails FetchOutcome.netError st).state.dom.toasts
          = st.dom.toasts ++ [("Failed to load emails", "error")])
    ∧ ((loadEmails (FetchOutcome.response false data err) st).isOk = true
      ∧ (loadEmails (FetchOutcome.response false data err) st).state.dom.emptyDisplay = "flex"
      ∧ (loadEmails (FetchOutcome.response false data err) st).state.dom.toasts
          = st.dom.toasts) := by
  simp [loadEmails, showLoading, showEmpty, loadEmailsCatch, showToast, Outcome.state,
    Outcome.isOk, h]

/-- Witness for C3 at the concrete empty snapshot and initial state. -/
theorem C3_amended_witness :
    (loadEmails (FetchOutcome.response false snapEmpty none) stateWithEmailsGrid).state.dom.toasts
      = stateWithEmailsGrid.dom.toasts :=
  (C3_amended stateWithEmailsGrid { display := "none", className := "emails-grid" }
    snapEmpty none rfl).2.2.2

/-- C5: for every prior state and every failing `refreshEmails` run (fetch
rejected or `success:false` body), the in-memory snapshot afterwards equals
the snapshot before, the listing and counts are untouched, no exception
escapes, and the only effect is the info toast followed by an error
toast. -/
theorem C5_refresh_preserves_snapshot (st : DashboardState) (outcome : FetchOutcome)
    (h : outcome.isFailure = true) :
    (refreshEmails outcome st).isOk = true
    ∧ (refreshEmails outcome st).state.emailsData = st.emailsData
    ∧ (refreshEmails outcome st).state.dom.listing = st.dom.listing
    ∧ (refreshEmails outcome st).state.dom.tabCounts = st.dom.tabCounts
    ∧ (refreshEmails outcome st).state.dom.emptyDisplay = st.dom.emptyDisplay
    ∧ (refreshEmails outcome st).state.dom.toasts
        = st.dom.toasts
            ++ [("Refreshing emails...", "info"), (refreshFailureMessage outcome, "error")] := by
  cases outcome with
  | netError =>
    simp [refreshEmails, showToast, refreshFailureMessage, Outcome.state, Outcome.isOk]
  | response success data err =>
    cases success with
    | true => simp [FetchOutcome.isFailure] at h
    | false =>
      simp [refreshEmails, showToast, refreshFailureMessage, Outcome.state, Outcome.isOk]

/-- Witness for C5 at a concrete network error over the initial state. -/
theorem C5_refresh_witness :
    FetchOutcome.netError.isFailure = true
    ∧ (refreshEmails FetchOutcome.netError initialState).state.emailsData
        = initialState.emailsData :=
  ⟨rfl, (C5_refresh_preserves_snapshot initialState FetchOutcome.netError rfl).2.1⟩

/-- Re-rendering the listing leaves every part of the state other than the
listing and the listing header untouched. -/
theorem displayCurrentSection_frame (st : DashboardState) :
    (displayCurrentSection st).currentSection = st.currentSection
    ∧ (displayCurrentSection st).currentCategory = st.currentCategory
    ∧ (displayCurrentSection st).currentView = st.currentView
    ∧ (displayCurrentSection st).emailsData = st.emailsData
    ∧ (displayCurrentSection st).dom.sidebarDisplay = st.dom.sidebarDisplay
    ∧ (displayCurrentSection st).dom.toasts = st.dom.toasts
    ∧ (displayCurrentSection st).dom.emailsGrid = st.dom.emailsGrid
    ∧ (displayCurrentSection st).dom.activeCategoryBtn = st.dom.activeCategoryBtn
    ∧ (displayCurrentSection st).dom.articlesGridClass = st.dom.articlesGridClass
    ∧ (displayCurrentSection st).dom.tabCounts = st.dom.tabCounts := by
  obtain ⟨cs, cc, cv, ed, d⟩ := st
  cases ed <;>
    simp [displayCurrentSection, displayArticles, displaySectionEmails] <;>
    split <;> simp

/-- `displayArticles` does not touch the listing header. -/
theorem displayArticles_headerText (st : DashboardState) :
    (displayArticles st).dom.headerText = st.dom.headerText := by
  obtain ⟨cs, cc, cv, ed, d⟩ := st
  cases ed <;> simp [displayArticles]

/-- When the articles section is active, re-rendering leaves the listing
header untouched (`displayArticles` never writes it). -/
theorem displayCurrentSection_headerText (st : DashboardState)
    (h : st.currentSection = "articles") :
    (displayCurrentSection st).dom.headerText = st.dom.headerText := by
  obtain ⟨cs, cc, cv, ed, d⟩ := st
  cases ed <;> simp_all [displayCurrentSection, displayArticles]

/-- The listing produced by a re-render depends only on the snapshot, the
active section, the active category, and (when no snapshot is loaded) the
previous listing. -/
theorem displayCurrentSection_listing_congr (st1 st2 : DashboardState)
    (hs : st1.currentSection = st2.currentSection)
    (hc : st1.currentCategory = st2.currentCategory)
    (he : st1.emailsData = st2.emailsData)
    (hl : st1.dom.listing = st2.dom.listing) :
    (displayCurrentSection st1).dom.listing = (displayCurrentSection st2).dom.listing := by
  obtain ⟨cs1, cc1, cv1, ed1, d1⟩ := st1
  obtain ⟨cs2, cc2, cv2, ed2, d2⟩ := st2
  simp only at hs hc he hl
  subst hs; subst hc; subst he
  cases ed1 <;>
    simp [displayCurrentSection, displayArticles, displaySectionEmails, hl] <;>
    split <;> simp [hl]

/-- Counterexample to C6: switching to a non-articles section leaves the
previously selected category in place — `currentCategory` is not reset to
`all` on every section switch. -/
theorem C6_cex_no_reset :
    (switchSection "jobs" stTechJobs).isOk = true
    ∧ (switchSection "jobs" stTechJobs).state.currentCategory = "technology"
    ∧ ¬ (switchSection "jobs" stTechJobs).state.currentCategory = "all" :=
  ⟨rfl, rfl, by decide⟩

/-- C6 as amended: for each of the five tab sections and any loaded
snapshot, `switchSection` completes, sets `currentSection`, shows the
category sidebar exactly when the section is `articles`, and resets
`currentCategory` to `all` exactly when entering `articles` (otherwise the
category is left unchanged). -/
theorem C6_amended (st : DashboardState) (sec : String) (snap : EmailSnapshot)
    (h1 : sec ∈ sectionTabs) (h2 : st.emailsData = some snap) :
    (switchSection sec st).isOk = true
    ∧ (switchSection sec st).state.currentSection = sec
    ∧ (switchSection sec st).state.dom.sidebarDisplay
        = (if sec = "articles" then "block" else "none")
    ∧ (switchSection sec st).state.currentCategory
        = (if sec = "articles" then "all" else st.currentCategory) := by
  obtain ⟨cs, cc, cv, ed, d⟩ := st
  simp only at h2
  subst h2
  by_cases ha : sec = "articles"
  · subst ha
    simp [switchSection, sectionTabs, updateCategoryFilters, updateCategoryFiltersCore,
      displayCurrentSection, displayArticles, Outcome.state, Outcome.isOk]
  · simp [switchSection, Outcome.state, Outcome.isOk, h1, ha, displayCurrentSection,
      displaySectionEmails]

/-- Witness for C6 at the concrete jobs switch over a loaded snapshot. -/
theorem C6_amended_witness :
    (switchSection "jobs" stTechJobs).state.currentCategory = stTechJobs.currentCategory := by
  have h := C6_amended stTechJobs "jobs" snapJobs2 (by decide) rfl
  simpa using h.2.2.2

/-- Counterexample to C7: on the shipped document `toggleView` changes no
layout class at all — the listing container (`articlesGrid`) keeps its
class, and there is no `emailsGrid` element to receive the
`emails-<view>` class. -/
theorem C7_cex_no_layout_class :
    initialState.dom.articlesGridClass = "articles-grid"
    ∧ (toggleView "list" initialState).dom.articlesGridClass = "articles-grid"
    ∧ (toggleView "list" initialState).dom.emailsGrid = none :=
  ⟨rfl, rfl, rfl⟩

/-- C7 as amended: `toggleView(view)` sets `currentView`, re-renders the
listing and emits the confirmation toast; its class update targets only an
element with id `emailsGrid`, so with the shipped document (which lacks
one) no layout class changes, while the listing container's own class is
never touched. -/
theorem C7_amended (st : DashboardState) (v : String) :
    (toggleView v st).currentView = v
    ∧ (toggleView v st).dom.toasts
        = st.dom.toasts ++ [("Switched to " ++ v ++ " view", "success")]
    ∧ (toggleView v st).dom.articlesGridClass = st.dom.articlesGridClass
    ∧ (st.dom.emailsGrid = none → (toggleView v st).dom.emailsGrid = none)
    ∧ (∀ g : Elem, st.dom.emailsGrid = some g →
        (toggleView v st).dom.emailsGrid = some { g with className := "emails-" ++ v })
    ∧ (toggleView v st).dom.listing = (displayEmails st).dom.listing := by
  cases hg : st.dom.emailsGrid with
  | none =>
    refine ⟨?_, ?_, ?_, ?_, ?_, ?_⟩
    · simp only [toggleView, hg]
      exact (displayCurrentSection_frame _).2.2.1
    · simp only [toggleView, hg]
      exact congrArg (fun l => l ++ [("Switched to " ++ v ++ " view", "success")])
        ((displayCurrentSection_frame _).2.2.2.2.2.1)
    · simp only [toggleView, hg]
      exact (displayCurrentSection_frame _).2.2.2.2.2.2.2.2.1
    · intro h0
      simp only [toggleView, hg]
      exact (displayCurrentSection_frame _).2.2.2.2.2.2.1
    · intro g hgg
      cases hgg
    · simp only [toggleView, hg]
      exact displayCurrentSection_listing_congr _ _ rfl rfl rfl rfl
  | some g0 =>
    refine ⟨?_, ?_, ?_, ?_, ?_, ?_⟩
    · simp only [toggleView, hg]
      exact (displayCurrentSection_frame _).2.2.1
    · simp only [toggleView, hg]
      exact congrArg (fun l => l ++ [("Switched to " ++ v ++ " view", "success")])
        ((displayCurrentSection_frame _).2.2.2.2.2.1)
    · simp only [toggleView, hg]
      exact (displayCurrentSection_frame _).2.2.2.2.2.2.2.2.1
    · intro h0
      cases h0
    · intro g hgg
      injection hgg with hgg2
      subst hgg2
      simp only [toggleView, hg]
      exact (displayCurrentSection_frame _).2.2.2.2.2.2.1
    · simp only [toggleView, hg]
      exact displayCurrentSection_listing_congr _ _ rfl rfl rfl rfl

/-- Witness for C7 at a concrete view toggle over the initial state. -/
theorem C7_amended_witness :
    (toggleView "list" initialState).currentView = "list" :=
  (C7_amended initialState "list").1

/-- Counterexample to C10: with a non-articles section active, the
effective `filterByCategory` does change the listing header — its
`displayEmails` re-render runs `displaySectionEmails`, which writes the
section name into the header. -/
theorem C10_cex_header_changes :
    stJobsHeader.dom.headerText = "All Articles"
    ∧ (filterByCategory "technology" stJobsHeader).dom.headerText = "Job Alerts"
    ∧ ¬ (filterByCategory "technology" stJobsHeader).dom.headerText
        = stJobsHeader.dom.headerText :=
  ⟨rfl, rfl, by decide⟩

/-- C10 as amended: the later of the two `filterByCategory` definitions is
in effect; for every category it sets `currentCategory`, re-activates the
matching category button, re-renders the current section via
`displayEmails` and shows a success toast; it contains no header update of
its own, so the header text is unchanged whenever the articles section is
active — though re-rendering a non-articles section writes that section's
name into the header — while the shadowed first definition did write the
header. -/
theorem C10_amended (st : DashboardState) (cat : String) (h : st.currentSection = "articles") :
    (filterByCategory cat st).currentCategory = cat
    ∧ (filterByCategory cat st).dom.headerText = st.dom.headerText
    ∧ (filterByCategory cat st).dom.toasts = st.dom.toasts ++
        [("Showing " ++ (if cat = "all" then "All Articles" else formatCategoryName cat),
          "success")]
    ∧ ((cat = "all" ∨ cat ∈ st.dom.categoryButtons.map Prod.fst) →
        (filterByCategory cat st).dom.activeCategoryBtn = cat)
    ∧ (filterByCategory cat st).dom.listing
        = (displayCurrentSection { st with currentCategory := cat }).dom.listing
    ∧ (filterByCategoryShadowed "all" st).state.dom.headerText = "All Articles" := by
  refine ⟨?_, ?_, ?_, ?_, ?_, ?_⟩
  · simp only [filterByCategory, displayEmails, showToast]
    exact (displayCurrentSection_frame _).2.1
  · simp only [filterByCategory, displayEmails, showToast]
    exact displayCurrentSection_headerText _ h
  · simp only [filterByCategory, displayEmails, showToast]
    exact congrArg (fun l => l ++
        [("Showing " ++ (if cat = "all" then "All Articles" else formatCategoryName cat),
          "success")])
      ((displayCurrentSection_frame _).2.2.2.2.2.1)
  · intro h0
    have hb : cat ∈ "all" :: st.dom.categoryButtons.map Prod.fst := by
      rcases h0 with h0 | h0
      · exact h0 ▸ List.mem_cons_self _ _
      · exact List.mem_cons_of_mem _ h0
    simp only [filterByCategory, displayEmails, showToast]
    rw [(displayCurrentSection_frame _).2.2.2.2.2.2.2.1]
    simp [hb]
  · simp only [filterByCategory, displayEmails, showToast]
    exact displayCurrentSection_listing_congr _ _ rfl rfl rfl rfl
  · have hmem : ("all" : String) ∈ "all" :: st.dom.categoryButtons.map Prod.fst :=
      List.mem_cons_self _ _
    simp only [filterByCategoryShadowed, if_pos hmem, Outcome.state]
    rw [displayArticles_headerText]
    simp

/-- Witness for C10 at the concrete `all` filter over the initial state. -/
theorem C10_amended_witness :
    (filterByCategory "all" stateWithEmailsGrid).dom.headerText
      = stateWithEmailsGrid.dom.headerText :=
  (C10_amended stateWithEmailsGrid "all" rfl).2.1

/-- Writing a tab count changes the looked-up text of that tab (when the
element exists) and nothing else. -/
theorem setTabCount_lookup_self (counts : List (String × String)) (k v : String) :
    (setTabCount counts k v).lookup k = (counts.lookup k).map fun _ => v := by
  induction counts with
  | nil => rfl
  | cons p rest ih =>
    obtain ⟨k1, v1⟩ := p
    simp only [setTabCount, List.map_cons] at ih ⊢
    by_cases h : k1 = k
    · subst h
      rw [if_pos rfl]
      have hb : (k1 == k1) = true := beq_self_eq_true k1
      simp [List.lookup, hb]
    · rw [if_neg h]
      have hb : (k == k1) = false := beq_eq_false_iff_ne.mpr (Ne.symm h)
      simpa [List.lookup, hb] using ih

/-- Writing one tab count leaves every other tab's text unchanged. -/
theorem setTabCount_lookup_other (counts : List (String × String)) (k k2 v : String)
    (h : ¬ k2 = k) :
    (setTabCount counts k v).lookup k2 = counts.lookup k2 := by
  induction counts with
  | nil => rfl
  | cons p rest ih =>
    obtain ⟨k1, v1⟩ := p
    simp only [setTabCount, List.map_cons] at ih ⊢
    by_cases h1 : k1 = k
    · subst h1
      rw [if_pos rfl]
      have hb : (k2 == k1) = false := beq_eq_false_iff_ne.mpr h
      simpa [List.lookup, hb] using ih
    · rw [if_neg h1]
      by_cases h2 : k2 = k1
      · subst h2
        have hb : (k2 == k2) = true := beq_self_eq_true k2
        simp [List.lookup, hb]
      · have hb : (k2 == k1) = false := beq_eq_false_iff_ne.mpr h2
        simpa [List.lookup, hb] using ih

/-- A tab for a section absent from the snapshot keeps its old text across
`updateSectionCounts`' write loop. -/
theorem foldl_setTabCount_not_mem (secs : List (String × List Email))
    (counts : List (String × String)) (k : String) (hk : k ∉ secs.map Prod.fst) :
    (secs.foldl (fun cs p => setTabCount cs p.1 (toString p.2.length)) counts).lookup k
      = counts.lookup k := by
  induction secs generalizing counts with
  | nil => rfl
  | cons p rest ih =>
    simp only [List.map_cons, List.mem_cons, not_or] at hk
    rw [List.foldl_cons, ih _ hk.2]
    exact setTabCount_lookup_other _ _ _ _ hk.1

/-- A tab for a section present in the snapshot reads that section's length
after `updateSectionCounts`' write loop (snapshot keys are unique, as for
any JavaScript object). -/
theorem foldl_setTabCount_mem (secs : List (String × List Email))
    (counts : List (String × String)) (sec : String) (es : List Email)
    (hmem : (sec, es) ∈ secs) (hnd : (secs.map Prod.fst).Nodup) :
    (secs.foldl (fun cs p => setTabCount cs p.1 (toString p.2.length)) counts).lookup sec
      = (counts.lookup sec).map fun _ => toString es.length := by
  induction secs generalizing counts with
  | nil => cases hmem
  | cons p rest ih =>
    rw [List.foldl_cons]
    simp only [List.map_cons, List.nodup_cons] at hnd
    rcases List.mem_cons.mp hmem with heq | hmem2
    · subst heq
      rw [foldl_setTabCount_not_mem _ _ _ (by simpa using hnd.1)]
      exact setTabCount_lookup_self _ _ _
    · have hsec : sec ∈ rest.map Prod.fst := List.mem_map_of_mem Prod.fst hmem2
      have hne : ¬ sec = p.1 := fun hh => hnd.1 (hh ▸ hsec)
      rw [ih _ hmem2 hnd.2]
      rw [setTabCount_lookup_other _ _ _ _ hne]

/-- Counterexample to C1: render a snapshot whose `jobs` section has two
records, then re-render a snapshot with no `jobs` section at all — the
jobs tab still displays the stale `2`, not the `0` the claim requires. -/
theorem C1_cex_stale_count :
    (updateUI { (updateUI { initialState with emailsData := some snapJobs2 }) with
        emailsData := some snapEmpty }).dom.tabCounts.lookup "jobs" = some "2"
    ∧ ¬ ((updateUI { (updateUI { initialState with emailsData := some snapJobs2 }) with
        emailsData := some snapEmpty }).dom.tabCounts.lookup "jobs" = some "0") :=
  ⟨rfl, by decide⟩

/-- C1 as amended: after a re-render of a snapshot (with the unique keys of
a JavaScript object), every section tab present in the snapshot displays
that section's sequence length; a tab whose section is absent from the
snapshot keeps its previously displayed count (it is not reset to 0); and,
when the articles section is active, the "All" button displays the length
of `sections.articles` and each category button the length of its category
sequence. -/
theorem C1_amended (st : DashboardState) (snap : EmailSnapshot) (sec : String) (es : List Email)
    (hnd : (snap.sections.map Prod.fst).Nodup) :
    ((sec, es) ∈ snap.sections →
      (updateUI { st with emailsData := some snap }).dom.tabCounts.lookup sec
        = (st.dom.tabCounts.lookup sec).map fun _ => toString es.length)
    ∧ (sec ∉ snap.sections.map Prod.fst →
      (updateUI { st with emailsData := some snap }).dom.tabCounts.lookup sec
        = st.dom.tabCounts.lookup sec)
    ∧ (st.currentSection = "articles" →
      (updateUI { st with emailsData := some snap }).dom.allCountText
          = toString ((snap.sections.lookup "articles").getD []).length
        ∧ (updateUI { st with emailsData := some snap }).dom.categoryButtons
          = snap.article_categories.map fun p => (p.1, toString p.2.length)) := by
  obtain ⟨cs, cc, cv, ed, d⟩ := st
  by_cases harts : cs = "articles"
  · subst harts
    refine ⟨?_, ?_, ?_⟩
    · intro hmem
      exact foldl_setTabCount_mem _ _ _ _ hmem hnd
    · intro hnm
      exact foldl_setTabCount_not_mem _ _ _ hnm
    · intro _
      exact ⟨rfl, rfl⟩
  · refine ⟨?_, ?_, ?_⟩
    · intro hmem
      simp only [updateUI, updateSectionCounts]
      rw [if_neg harts]
      exact foldl_setTabCount_mem _ _ _ _ hmem hnd
    · intro hnm
      simp only [updateUI, updateSectionCounts]
      rw [if_neg harts]
      exact foldl_setTabCount_not_mem _ _ _ hnm
    · intro hh
      exact absurd hh harts

/-- Witness for C1 at the concrete two-record jobs snapshot. -/
theorem C1_amended_witness :
    (updateUI { initialState with emailsData := some snapJobs2 }).dom.tabCounts.lookup "jobs"
      = some "2" := by
  have h := (C1_amended initialState snapJobs2 "jobs" [dummyEmail, dummyEmail]
    (by decide)).1 (by decide)
  rw [h]
  rfl

end Zynk

